import Mathlib

/-!
Verification of the two configuration files of the repository:
`webpack.config.js` (front-end bundler configuration) and
`deploy/nginx/opencodelists` (reverse-proxy configuration).
Each configuration is embedded literally as Lean data, and the claims
about it are proved as theorems over that data.
-/

/-- Whether the first character list occurs at the front of the
second. -/
def charsLeadWith : List Char → List Char → Bool
  | [], _ => true
  | _ :: _, [] => false
  | p :: ps, c :: cs => p == c && charsLeadWith ps cs

/-- Whether the string `s` ends with the string `suf`. -/
def strEndsWith (s suf : String) : Bool :=
  charsLeadWith suf.data.reverse s.data.reverse

/-- Whether the string `s` starts with the string `pre`. -/
def strStartsWith (s t : String) : Bool :=
  charsLeadWith t.data s.data

/-- The numeric value of a decimal digit character, when it is one. -/
def digitVal (c : Char) : Option Nat :=
  if '0' ≤ c && c ≤ '9' then some (c.toNat - '0'.toNat) else none

/-- The value of a non-empty all-digit character list read as a decimal
numeral, accumulating left to right; `none` when a non-digit occurs or
the list was empty with no accumulated value. -/
def charsToNat : List Char → Option Nat → Option Nat
  | [], acc => acc
  | c :: cs, acc =>
    match digitVal c, acc with
    | some d, some n => charsToNat cs (some (n * 10 + d))
    | some d, none => charsToNat cs (some d)
    | none, _ => none

/-- The value of a string read as a decimal numeral, when it is one. -/
def strToNat (s : String) : Option Nat := charsToNat s.data none

namespace Webpack

/-- A module rule of the bundler configuration: a test on the file path
and the loader applied when the test matches.  The source rule's test is
the regex `/\.jsx$/`, which matches a path exactly when it ends with the
four characters `.jsx`. -/
structure Rule where
  test : String → Bool
  loader : String

/-- `module.rules` of `webpack.config.js`: a single rule with
`test: /\.jsx$/` and `loader: "babel-loader"`. -/
def moduleRules : List Rule :=
  [{ test := fun p => strEndsWith p ".jsx", loader := "babel-loader" }]

/-- The loaders applied to a path: the loaders of the rules whose test
matches the path. -/
def matchingLoaders (p : String) : List String :=
  (moduleRules.filter (fun r => r.test p)).map (fun r => r.loader)

/-- `entry` of `webpack.config.js`: bundle names mapped to entry source
files. -/
def entry : List (String × String) :=
  [("builder", "./static/src/js/builder/index.jsx"),
   ("codelist", "./static/src/js/codelist.js"),
   ("codelist-version", "./static/src/js/codelist-version.js"),
   ("tree", "./static/src/js/tree/index.jsx")]

/-- The entry source file mapped to a bundle name, if any. -/
def entryLookup (name : String) : Option String :=
  (entry.find? (fun e => e.1 == name)).map (fun e => e.2)

/-- `path.resolve(dirname, segs...)` for an absolute `dirname` and
relative segments: each segment is joined onto the path with a `/`
separator. -/
def pathResolve (dirname : String) (segs : List String) : String :=
  segs.foldl (fun acc s => acc ++ "/" ++ s) dirname

/-- `output.path` of `webpack.config.js`:
`path.resolve(__dirname, "static", "dist", "js")`. -/
def outputPath (dirname : String) : String :=
  pathResolve dirname ["static", "dist", "js"]

/-- `output.filename` of `webpack.config.js`. -/
def outputFilename : String := "[name].bundle.js"

/-- `resolve.extensions` of `webpack.config.js`. -/
def resolveExtensions : List String := [".js", ".jsx"]

end Webpack

namespace Nginx

/-- One `server` entry of an `upstream` block: its target and its
`fail_timeout` value in seconds. -/
structure UpstreamServer where
  target : String
  fail_timeout : Nat

/-- An `upstream` block: its name, its server entries and its
`keepalive` connection count. -/
structure Upstream where
  name : String
  servers : List UpstreamServer
  keepalive : Nat

/-- The upstream blocks of `deploy/nginx/opencodelists`: a single group
`opencodelists` with one server entry, the Unix domain socket
`unix:/tmp/gunicorn-opencodelists.sock` with `fail_timeout=0`, and
`keepalive 60`. -/
def upstreams : List Upstream :=
  [{ name := "opencodelists",
     servers := [{ target := "unix:/tmp/gunicorn-opencodelists.sock",
                   fail_timeout := 0 }],
     keepalive := 60 }]

/-- A `listen` directive: whether it is the IPv6 form (`[::]:port`) and
the port. -/
structure ListenDirective where
  ipv6 : Bool
  port : Nat

/-- The `listen` directives of the server block: `listen 80;` (IPv4) and
`listen [::]:80;` (IPv6). -/
def serverListen : List ListenDirective :=
  [{ ipv6 := false, port := 80 }, { ipv6 := true, port := 80 }]

/-- The `server_name` of the server block. -/
def serverName : String := "codelists.opensafely.org"

/-- The nameservers of the `resolver` directive. -/
def resolverNameservers : List String := ["8.8.8.8", "8.8.4.4"]

/-- The `valid=300s` cache validity of the `resolver` directive, in
seconds. -/
def resolverValidSeconds : Nat := 300

/-- The `resolver_timeout 5s` value, in seconds. -/
def resolverTimeoutSeconds : Nat := 5

/-- The `client_max_body_size` value as written in the configuration. -/
def clientMaxBodySize : String := "200M"

/-- The byte value of one size-suffix character as nginx interprets it
(`k`/`K` for kibibytes, `m`/`M` for mebibytes, `g`/`G` for gibibytes;
nginx calls these kilobytes, megabytes and gigabytes). -/
def nginxSuffixFactor (c : Char) : Option Nat :=
  if c == 'k' || c == 'K' then some 1024
  else if c == 'm' || c == 'M' then some (1024 * 1024)
  else if c == 'g' || c == 'G' then some (1024 * 1024 * 1024)
  else none

/-- A size value as nginx interprets it, in bytes: a decimal number with
an optional scale suffix. -/
def nginxSizeBytes (s : String) : Option Nat :=
  match s.data.getLast? with
  | none => none
  | some c =>
    match nginxSuffixFactor c with
    | some factor =>
      (strToNat (String.mk s.data.dropLast)).map (fun n => n * factor)
    | none => strToNat s

/-- The `proxy_set_header` directives of `location /`, in source order:
header name and value expression. -/
def proxySetHeaders : List (String × String) :=
  [("X-Forwarded-For", "$proxy_add_x_forwarded_for"),
   ("X-Forwarded-Proto", "$scheme"),
   ("X-Real-IP", "$remote_addr"),
   ("Host", "$http_host")]

/-- The value set for a forwarded header, if a `proxy_set_header`
directive for it exists. -/
def headerValue (name : String) : Option String :=
  (proxySetHeaders.find? (fun h => h.1 == name)).map (fun h => h.2)

/-- The `proxy_pass` target URL of `location /`. -/
def proxyPassUrl : String := "http://opencodelists"

/-- The host part of an `http://` proxy-pass URL: the URL with the
scheme stripped. -/
def urlHost (url : String) : String :=
  if strStartsWith url "http://" then String.mk (url.data.drop 7) else url

end Nginx

/-- Claim C1: for every file path, the bundler's single module rule
applies exactly when the path ends with `.jsx`, in which case the loader
applied is `babel-loader`; paths not ending in `.jsx` are matched by no
rule. -/
theorem jsx_rule_matches_exactly (p : String) :
    Webpack.matchingLoaders p =
      if strEndsWith p ".jsx" then ["babel-loader"] else [] := by
  by_cases h : strEndsWith p ".jsx" <;>
    simp [Webpack.matchingLoaders, Webpack.moduleRules, h]

/-- Witness for claim C1 at the concrete paths `index.jsx` and
`codelist.js`. -/
theorem jsx_rule_matches_exactly_witness :
    Webpack.matchingLoaders "index.jsx" = ["babel-loader"] ∧
    Webpack.matchingLoaders "codelist.js" = [] := by
  constructor
  · rw [jsx_rule_matches_exactly "index.jsx"]; decide
  · rw [jsx_rule_matches_exactly "codelist.js"]; decide

/-- Claim C2: the server block listens on port 80 on both IPv4 and IPv6,
and its server_name is exactly `codelists.opensafely.org`. -/
theorem server_listens_port_80_both_stacks :
    (∀ l ∈ Nginx.serverListen, l.port = 80) ∧
    (∃ l ∈ Nginx.serverListen, l.ipv6 = false) ∧
    (∃ l ∈ Nginx.serverListen, l.ipv6 = true) ∧
    Nginx.serverListen.length = 2 ∧
    Nginx.serverName = "codelists.opensafely.org" := by
  refine ⟨?_, ?_, ?_, rfl, rfl⟩ <;> decide

/-- Counterexample to claim C3 as stated: nginx interprets the suffix
`M` as mebibytes (1024 * 1024 bytes), so the configured
`client_max_body_size` of `200M` is not 200,000,000 bytes. -/
theorem client_max_body_size_not_2e8 :
    Nginx.nginxSizeBytes Nginx.clientMaxBodySize ≠ some 200000000 := by
  decide

/-- Claim C3 (amended): the server block's `client_max_body_size`,
interpreted in bytes as nginx interprets the suffix `M`
(1024 * 1024 bytes), equals 200 binary megabytes, i.e. 209,715,200
bytes. -/
theorem client_max_body_size_200_mebibytes :
    Nginx.nginxSizeBytes Nginx.clientMaxBodySize = some 209715200 := by
  decide

/-- Claim C4: `location /` sets exactly four forwarded headers:
X-Forwarded-For from the proxy-add chain variable, X-Forwarded-Proto
from the scheme variable, X-Real-IP from the remote-address variable and
Host from the original host variable. -/
theorem proxy_forwarded_headers_exact :
    Nginx.headerValue "X-Forwarded-For" = some "$proxy_add_x_forwarded_for" ∧
    Nginx.headerValue "X-Forwarded-Proto" = some "$scheme" ∧
    Nginx.headerValue "X-Real-IP" = some "$remote_addr" ∧
    Nginx.headerValue "Host" = some "$http_host" ∧
    Nginx.proxySetHeaders.length = 4 := by
  exact ⟨rfl, rfl, rfl, rfl, rfl⟩

/-- Claim C5: exactly one upstream group is defined, named
`opencodelists`, with exactly one server entry: the Unix domain socket
`unix:/tmp/gunicorn-opencodelists.sock` with fail_timeout 0; the group's
keepalive connection count is 60. -/
theorem upstream_single_unix_socket :
    Nginx.upstreams.length = 1 ∧
    ∃ u ∈ Nginx.upstreams,
      u.name = "opencodelists" ∧
      u.keepalive = 60 ∧
      u.servers.length = 1 ∧
      ∃ s ∈ u.servers,
        s.target = "unix:/tmp/gunicorn-opencodelists.sock" ∧
        s.fail_timeout = 0 := by
  decide

/-- Claim C6: the entry map contains exactly four entries, mapping
`builder`, `codelist`, `codelist-version` and `tree` to their source
files, and no other bundle name. -/
theorem entry_map_exact :
    Webpack.entryLookup "builder" = some "./static/src/js/builder/index.jsx" ∧
    Webpack.entryLookup "codelist" = some "./static/src/js/codelist.js" ∧
    Webpack.entryLookup "codelist-version" =
      some "./static/src/js/codelist-version.js" ∧
    Webpack.entryLookup "tree" = some "./static/src/js/tree/index.jsx" ∧
    Webpack.entry.map Prod.fst =
      ["builder", "codelist", "codelist-version", "tree"] := by
  exact ⟨rfl, rfl, rfl, rfl, rfl⟩

/-- Claim C7: the output declares the filename pattern
`[name].bundle.js`, and the output directory is the resolution of the
segments `static`, `dist`, `js` under the configuration file's own
directory. -/
theorem output_pattern_and_path (dirname : String) :
    Webpack.outputFilename = "[name].bundle.js" ∧
    Webpack.outputPath dirname = dirname ++ "/static/dist/js" := by
  refine ⟨rfl, ?_⟩
  simp only [Webpack.outputPath, Webpack.pathResolve, List.foldl,
    String.append_assoc]
  congr 1

/-- Witness for claim C7 at the concrete directory `/repo`. -/
theorem output_pattern_and_path_witness :
    Webpack.outputPath "/repo" = "/repo/static/dist/js" := by
  exact (output_pattern_and_path "/repo").2

/-- Claim C8: the resolve.extensions list is exactly `.js` then `.jsx`,
in that order. -/
theorem resolve_extensions_exact :
    Webpack.resolveExtensions = [".js", ".jsx"] ∧
    Webpack.resolveExtensions.get? 0 = some ".js" ∧
    Webpack.resolveExtensions.get? 1 = some ".jsx" ∧
    Webpack.resolveExtensions.length = 2 := by
  exact ⟨rfl, rfl, rfl, rfl⟩

/-- Claim C9: the resolver directive names the nameservers 8.8.8.8 and
8.8.4.4 with a cache validity of 300 seconds, and the resolver timeout
is 5 seconds. -/
theorem resolver_settings_exact :
    Nginx.resolverNameservers = ["8.8.8.8", "8.8.4.4"] ∧
    Nginx.resolverValidSeconds = 300 ∧
    Nginx.resolverTimeoutSeconds = 5 := by
  exact ⟨rfl, rfl, rfl⟩

/-- Claim C10: the host named by the proxy_pass target URL of
`location /` is the name of a declared upstream group, and that group's
single server entry is the Unix domain socket, so the proxy_pass never
names an undeclared upstream. -/
theorem proxy_pass_names_declared_upstream :
    Nginx.urlHost Nginx.proxyPassUrl ∈ Nginx.upstreams.map Nginx.Upstream.name ∧
    ∃ u ∈ Nginx.upstreams,
      u.name = Nginx.urlHost Nginx.proxyPassUrl ∧
      u.servers.map Nginx.UpstreamServer.target =
        ["unix:/tmp/gunicorn-opencodelists.sock"] := by
  decide
